import Mathlib

/-!
# Verification of Stella's `CartridgeBUS` bankswitching scheme

A shallow embedding of `CartridgeBUS` (the BUS "smart cartridge" emulation:
hotspot decoding, datastream engine, music synthesis, bus stuffing and state
serialization).  Machine integers are modelled as `Nat` with explicit
`% 2^w` where overflow matters; the 6507-visible byte arrays (`myImage`,
`myBUSRAM`) are total functions `Nat → Nat` whose in-range entries are bytes
(captured by the well-formedness predicate `WF`); the C++ `double`
accumulator `myFractionalClocks` is idealized as an exact rational.  The
host-bus page table written by `System::setPageAccess` is modelled at address
granularity by the `pageMap` field.  Delegation to the RIOT/TIA peripherals
and the ARM Thumb interpreter are external collaborators: the former are
outside the cartridge state, the latter is passed in as an arbitrary state
transformer where it can run.
-/

namespace CartridgeBUS

/-- Offset of the datastream pointer table inside the RAM copy of the BUS
driver (`#define DSxPTR 0x06D8`). -/
def DSxPTR : Nat := 0x06D8

/-- Offset of the datastream increment table (`#define DSxINC 0x0720`). -/
def DSxINC : Nat := 0x0720

/-- Offset of the address-map table used by bus overdrive
(`#define DSMAPS 0x0760`). -/
def DSMAPS : Nat := 0x0760

/-- Offset of the waveform-offset table (`#define WAVEFORM 0x07F4`). -/
def WAVEFORM : Nat := 0x07F4

/-- Offset of the display RAM region (`#define DSRAM 0x0800`). -/
def DSRAM : Nat := 0x0800

/-- Index of the bidirectional command stream (`#define COMMSTREAM 0x10`). -/
def COMMSTREAM : Nat := 0x10

/-- Index of the indirect-jump stream (`#define JUMPSTREAM 0x11`). -/
def JUMPSTREAM : Nat := 0x11

/-- The mutable state of one `CartridgeBUS` instance.  `image` is the 32K ROM
(`myImage`; `myProgramImage` is the view at offset 4096), `busRAM` is the 8K
Harmony RAM (`myBUSRAM`; `myDisplayImage` is the view at offset `DSRAM`),
`pageMap` is the host bus page table this cartridge programs through
`System::setPageAccess` (modelled per address over the `0x1040`-`0x1FFF`
window).  `bankLocked` is the bank-lock flag of the `Cartridge` base class.
The music arrays `myMusicCounters`/`myMusicFrequencies`/`myMusicWaveformSize`
are spelled out as three fields each. -/
@[ext]
structure CartState where
  image : Nat → Nat
  busRAM : Nat → Nat
  pageMap : Nat → Nat
  currentBank : Nat
  mode : Nat
  busOverdriveAddress : Nat
  styZeroPageAddress : Nat
  jmpOperandAddress : Nat
  fastJumpActive : Nat
  bankChanged : Bool
  bankLocked : Bool
  systemCycles : Int
  armCycles : Int
  fractionalClocks : ℚ
  musicCounter0 : Nat
  musicCounter1 : Nat
  musicCounter2 : Nat
  musicFrequency0 : Nat
  musicFrequency1 : Nat
  musicFrequency2 : Nat
  musicWaveformSize0 : Nat
  musicWaveformSize1 : Nat
  musicWaveformSize2 : Nat

/-- `CartridgeBUS::getDatastreamPointer`: little-endian decode of the four
bytes at `DSxPTR + index*4`. -/
def getDatastreamPointer (s : CartState) (index : Nat) : Nat :=
  s.busRAM (DSxPTR + index * 4 + 0) +
  (s.busRAM (DSxPTR + index * 4 + 1) <<< 8) +
  (s.busRAM (DSxPTR + index * 4 + 2) <<< 16) +
  (s.busRAM (DSxPTR + index * 4 + 3) <<< 24)

/-- `CartridgeBUS::setDatastreamPointer`: little-endian encode of `value`
into the four bytes at `DSxPTR + index*4`. -/
def setDatastreamPointer (s : CartState) (index : Nat) (value : Nat) : CartState :=
  { s with busRAM := fun i =>
      if i = DSxPTR + index * 4 + 0 then value % 256
      else if i = DSxPTR + index * 4 + 1 then (value >>> 8) % 256
      else if i = DSxPTR + index * 4 + 2 then (value >>> 16) % 256
      else if i = DSxPTR + index * 4 + 3 then (value >>> 24) % 256
      else s.busRAM i }

/-- `CartridgeBUS::getDatastreamIncrement`: little-endian decode of the four
bytes at `DSxINC + index*4`. -/
def getDatastreamIncrement (s : CartState) (index : Nat) : Nat :=
  s.busRAM (DSxINC + index * 4 + 0) +
  (s.busRAM (DSxINC + index * 4 + 1) <<< 8) +
  (s.busRAM (DSxINC + index * 4 + 2) <<< 16) +
  (s.busRAM (DSxINC + index * 4 + 3) <<< 24)

/-- `CartridgeBUS::getAddressMap`: little-endian decode of the four bytes at
`DSMAPS + index*4`. -/
def getAddressMap (s : CartState) (index : Nat) : Nat :=
  s.busRAM (DSMAPS + index * 4 + 0) +
  (s.busRAM (DSMAPS + index * 4 + 1) <<< 8) +
  (s.busRAM (DSMAPS + index * 4 + 2) <<< 16) +
  (s.busRAM (DSMAPS + index * 4 + 3) <<< 24)

/-- `CartridgeBUS::setAddressMap`: little-endian encode of `value` into the
four bytes at `DSMAPS + index*4`. -/
def setAddressMap (s : CartState) (index : Nat) (value : Nat) : CartState :=
  { s with busRAM := fun i =>
      if i = DSMAPS + index * 4 + 0 then value % 256
      else if i = DSMAPS + index * 4 + 1 then (value >>> 8) % 256
      else if i = DSMAPS + index * 4 + 2 then (value >>> 16) % 256
      else if i = DSMAPS + index * 4 + 3 then (value >>> 24) % 256
      else s.busRAM i }

/-- `CartridgeBUS::getWaveform`: decode the four bytes at
`WAVEFORM + index*4`, subtract the origin `0x40000800` in `uInt32`
arithmetic, and clamp any result at or above 4096 to 0. -/
def getWaveform (s : CartState) (index : Nat) : Nat :=
  let result :=
    (s.busRAM (WAVEFORM + index * 4 + 0) +
     (s.busRAM (WAVEFORM + index * 4 + 1) <<< 8) +
     (s.busRAM (WAVEFORM + index * 4 + 2) <<< 16) +
     (s.busRAM (WAVEFORM + index * 4 + 3) <<< 24)) % 4294967296
  let result := (result + (4294967296 - 0x40000800)) % 4294967296
  if 4096 ≤ result then 0 else result

/-- `CartridgeBUS::getSample`: raw little-endian decode of the four bytes at
`WAVEFORM` (no origin subtraction, no clamp). -/
def getSample (s : CartState) : Nat :=
  s.busRAM (WAVEFORM + 0) +
  (s.busRAM (WAVEFORM + 1) <<< 8) +
  (s.busRAM (WAVEFORM + 2) <<< 16) +
  (s.busRAM (WAVEFORM + 3) <<< 24)

/-- `CartridgeBUS::getWaveformSize`. -/
def getWaveformSize (s : CartState) (index : Nat) : Nat :=
  if index = 0 then s.musicWaveformSize0
  else if index = 1 then s.musicWaveformSize1
  else s.musicWaveformSize2

/-- `CartridgeBUS::readFromDatastream`: return the display-RAM byte at
`pointer >> 20` and advance the pointer by `increment << 12` in `uInt32`
arithmetic.  The source narrows the increment to `uInt16`
(`uInt16 increment = getDatastreamIncrement(index);`), so only the low 16
bits of the configured increment take part. -/
def readFromDatastream (s : CartState) (index : Nat) : Nat × CartState :=
  let pointer := getDatastreamPointer s index
  let increment := getDatastreamIncrement s index % 65536
  let value := s.busRAM (DSRAM + (pointer >>> 20))
  (value, setDatastreamPointer s index ((pointer + (increment <<< 12)) % 4294967296))

/-- The `DSWRITE` hotspot body of `CartridgeBUS::poke`, parametric in the
stream index as specified by the datastream-engine contract (the source
instantiates it at `COMMSTREAM` only): store the byte at the pointer's
integer position and advance by the fixed unit step `0x100000`. -/
def writeToDatastream (s : CartState) (index : Nat) (value : Nat) : CartState :=
  let pointer := getDatastreamPointer s index
  let s' := { s with busRAM := fun i =>
      if i = DSRAM + (pointer >>> 20) then value % 256 else s.busRAM i }
  setDatastreamPointer s' index ((pointer + 0x100000) % 4294967296)

/-- Truncation toward zero of a rational, mirroring the C++ `Int32(...)`
cast of a `double`. -/
def ratTrunc (q : ℚ) : Int := q.num / (q.den : Int)

/-- The BUS OSC clocks pending at cycle count `now`: the elapsed 6507 cycles
since the last update converted through
`20000 * cycles / 1193191.66666667`, plus the carried fraction. -/
def busClocks (s : CartState) (now : Int) : ℚ :=
  (20000 * ((now - s.systemCycles : Int) : ℚ)) / (119319166666667 / 100000000) +
    s.fractionalClocks

/-- `CartridgeBUS::updateMusicModeDataFetchers`: convert the elapsed 6507
cycles since the last update into BUS OSC clocks through the rational
accumulator (`busClocks`), keep the new fraction, and advance each music
counter by `frequency * wholeClocks` in `uInt32` arithmetic when at least
one whole clock elapsed. -/
def updateMusicModeDataFetchers (s : CartState) (now : Int) : CartState :=
  let clocks : ℚ := busClocks s now
  let wholeClocks : Int := ratTrunc clocks
  let s2 := { s with systemCycles := now, fractionalClocks := clocks - (wholeClocks : ℚ) }
  if wholeClocks ≤ 0 then s2
  else
    { s2 with
      musicCounter0 := (s2.musicCounter0 + s2.musicFrequency0 * wholeClocks.toNat) % 4294967296
      musicCounter1 := (s2.musicCounter1 + s2.musicFrequency1 * wholeClocks.toNat) % 4294967296
      musicCounter2 := (s2.musicCounter2 + s2.musicFrequency2 * wholeClocks.toNat) % 4294967296 }

/-- `CartridgeBUS::bank`: refused while the bank is locked; otherwise record
the new bank and remap the host-bus pages of the `0x1040`-`0x1FFF` window to
the bank's 4K offset, reporting `myBankChanged = true`. -/
def bank (s : CartState) (b : Nat) : Bool × CartState :=
  if s.bankLocked then (false, s)
  else
    (true,
      { s with
        currentBank := b % 65536
        pageMap := fun a =>
          if 0x1040 ≤ a ∧ a < 0x2000 then ((b % 65536) <<< 12) + (a % 4096)
          else s.pageMap a
        bankChanged := true })

/-- `CartridgeBUS::getBank`. -/
def getBank (s : CartState) : Nat := s.currentBank

/-- `CartridgeBUS::bankCount`. -/
def bankCount : Nat := 7

/-- `CartridgeBUS::patch`: attempts to patch the low `0x40` bytes of the
window are ignored (return `false`); otherwise the program-ROM byte of the
current bank at the masked address is overwritten and `myBankChanged = true`
is returned.  Note the source performs no bank-lock check here. -/
def patch (s : CartState) (address value : Nat) : Bool × CartState :=
  let address := address % 4096
  if 0x40 ≤ address then
    (true,
      { s with
        image := fun i =>
          if i = 4096 + (s.currentBank <<< 12) + address then value % 256 else s.image i
        bankChanged := true })
  else (false, s)

/-- `CartridgeBUS::busOverdrive`: if the poked address matches the pending
override address and its low 7 bits index a TIA register (`map <= 0x24`),
read one byte from the datastream named by the map entry's low nybble as the
overdrive mask and rotate the map entry's nybbles once; in every case the
pending address is reset to the sentinel `0xFF` afterwards.  A non-matching
or non-TIA address yields the neutral mask `0xFF`. -/
def busOverdrive (s : CartState) (address : Nat) : Nat × CartState :=
  let p :=
    if address = s.busOverdriveAddress then
      let map := address &&& 0x7F
      if map ≤ 0x24 then
        let alldatastreams := getAddressMap s map
        let datastream := alldatastreams &&& 0x0F
        let q := readFromDatastream s datastream
        let alldatastreams' := ((alldatastreams >>> 4) ||| (datastream <<< 28)) % 4294967296
        (q.1, setAddressMap q.2 map alldatastreams')
      else (0xFF, s)
    else (0xFF, s)
  (p.1, { p.2 with busOverdriveAddress := 0xFF })

/-- `CartridgeBUS::peek`, restricted to the cartridge's own 4K window
(`address & 0x1000` set; accesses below the window are delegated verbatim to
the external RIOT/TIA peripherals and carry no cartridge state).  `now` is
the current system cycle count consumed by the music update.  Returns the
byte driven onto the bus together with the successor state. -/
def peek (s : CartState) (now : Int) (address : Nat) : Nat × CartState :=
  let address := address % 4096
  let peekvalue := s.image (4096 + (s.currentBank <<< 12) + address)
  if s.bankLocked then (peekvalue, s)
  else if s.fastJumpActive ≠ 0 ∧ s.jmpOperandAddress = address then
    let pointer := getDatastreamPointer s JUMPSTREAM
    let value := s.busRAM (DSRAM + (pointer >>> 20))
    let s1 := { s with
      fastJumpActive := s.fastJumpActive - 1
      jmpOperandAddress := (s.jmpOperandAddress + 1) % 65536 }
    (value, setDatastreamPointer s1 JUMPSTREAM ((pointer + 0x100000) % 4294967296))
  else if s.mode &&& 0x0F = 0 ∧ peekvalue = 0x4C ∧
          s.image (4096 + (s.currentBank <<< 12) + address + 1) = 0 ∧
          s.image (4096 + (s.currentBank <<< 12) + address + 2) = 0 then
    (peekvalue, { s with fastJumpActive := 2, jmpOperandAddress := (address + 1) % 65536 })
  else
    let s1 := { s with jmpOperandAddress := 0 }
    let s2 :=
      if s1.mode &&& 0x0F = 0 ∧ s1.styZeroPageAddress = address
      then { s1 with busOverdriveAddress := peekvalue }
      else s1
    let s3 := { s2 with styZeroPageAddress := 0 }
    let vs :=
      if address = 0xFEE then
        let m := updateMusicModeDataFetchers s3 now
        if m.mode &&& 0xF0 = 0 then
          let pv := m.image ((getSample m + (m.musicCounter0 >>> 21)) % 4294967296)
          let pv := if m.musicCounter0 &&& 0x100000 = 0 then pv >>> 4 else pv
          (pv &&& 0x0F, m)
        else
          let i :=
            m.busRAM (DSRAM + ((getWaveform m 0 + (m.musicCounter0 >>> m.musicWaveformSize0)) % 4294967296)) +
            m.busRAM (DSRAM + ((getWaveform m 1 + (m.musicCounter1 >>> m.musicWaveformSize1)) % 4294967296)) +
            m.busRAM (DSRAM + ((getWaveform m 2 + (m.musicCounter2 >>> m.musicWaveformSize2)) % 4294967296))
          (i % 256, m)
      else if address = 0xFEF then readFromDatastream s3 COMMSTREAM
      else if address = 0xFF5 then (peekvalue, (bank s3 0).2)
      else if address = 0xFF6 then (peekvalue, (bank s3 1).2)
      else if address = 0xFF7 then (peekvalue, (bank s3 2).2)
      else if address = 0xFF8 then (peekvalue, (bank s3 3).2)
      else if address = 0xFF9 then (peekvalue, (bank s3 4).2)
      else if address = 0xFFA then (peekvalue, (bank s3 5).2)
      else if address = 0xFFB then (peekvalue, (bank s3 6).2)
      else (peekvalue, s3)
    let s4 :=
      if vs.2.mode &&& 0x0F = 0 ∧ vs.1 = 0x84
      then { vs.2 with styZeroPageAddress := (address + 1) % 65536 }
      else vs.2
    (vs.1, s4)

/-- `CartridgeBUS::poke`.  For addresses below the window the value is masked
by `busOverdrive` and forwarded to the external RIOT/TIA peripherals (the
forwarded byte is the middle component of the result); inside the window the
hotspot switch runs.  `arm` stands in for the external Thumb interpreter run
by `CALLFN` (it owns the shared RAM for the duration of the call).  The
result's first component is the `changed` flag reported to the host bus,
which the source returns as the constant `false`. -/
def poke (s : CartState) (now : Int) (arm : CartState → CartState)
    (address value : Nat) : Bool × Nat × CartState :=
  if address &&& 0x1000 = 0 then
    let q := busOverdrive s address
    (false, value &&& q.1, q.2)
  else
    let address := address % 4096
    let s' :=
      if address = 0xFF0 then writeToDatastream s COMMSTREAM value
      else if address = 0xFF1 then
        let pointer := getDatastreamPointer s COMMSTREAM
        let pointer := (pointer <<< 8) % 4294967296
        let pointer := pointer &&& 0xF0000000
        let pointer := pointer ||| ((value % 256) <<< 20)
        setDatastreamPointer s COMMSTREAM pointer
      else if address = 0xFF2 then { s with mode := value % 256 }
      else if address = 0xFF3 then
        (if value = 254 ∨ value = 255 then arm { s with armCycles := now } else s)
      else if address = 0xFF5 then (bank s 0).2
      else if address = 0xFF6 then (bank s 1).2
      else if address = 0xFF7 then (bank s 2).2
      else if address = 0xFF8 then (bank s 3).2
      else if address = 0xFF9 then (bank s 4).2
      else if address = 0xFFA then (bank s 5).2
      else if address = 0xFFB then (bank s 6).2
      else s
    (false, value, s')

/-- Modelled from the spec: `Cartridge::lockBank` of the base class (not part
of the excerpt) sets the bank-lock flag that disables all bank-mutating
operations during state inspection. -/
def lockBank (s : CartState) : CartState := { s with bankLocked := true }

/-- Modelled from the spec: `Cartridge::unlockBank` clears the bank-lock
flag. -/
def unlockBank (s : CartState) : CartState := { s with bankLocked := false }

/-- `BUS_STUFF_ON`: the low nibble of the mode byte selects fast
fetch/bus stuffing, enabled when it is zero. -/
def busStuffOn (s : CartState) : Prop := s.mode &&& 0x0F = 0

/-- `DIGITAL_AUDIO_ON`: the high nibble of the mode byte selects digital
audio, enabled when it is zero. -/
def digitalAudioOn (s : CartState) : Prop := s.mode &&& 0xF0 = 0

instance (s : CartState) : Decidable (busStuffOn s) := by
  unfold busStuffOn; infer_instance

instance (s : CartState) : Decidable (digitalAudioOn s) := by
  unfold digitalAudioOn; infer_instance

/-- `CartridgeBUS::setInitialState` composed with `reset` and the
constructor, with `ramrandom` off: the driver copy of the ROM fills the
first 2K of the Harmony RAM and the rest of the 8K array is zeroed, the
cycle bases are re-based to the current clock, the fractional accumulator is
cleared, waveform sizes are 27, the mode byte is `0xFF`, and the cartridge
switches to the startup bank 6.  Fields whose first assignment lives in the
missing class header (detector addresses, fast-jump count, music
counters/frequencies) are modelled from the spec as starting at their
inactive values. -/
def initialState (img : Nat → Nat) (now : Int) : CartState :=
  (bank
    { image := img
      busRAM := fun i => if i < 2048 then img i else 0
      pageMap := fun _ => 0
      currentBank := 6
      mode := 0xFF
      busOverdriveAddress := 0
      styZeroPageAddress := 0
      jmpOperandAddress := 0
      fastJumpActive := 0
      bankChanged := false
      bankLocked := false
      systemCycles := now
      armCycles := now
      fractionalClocks := 0
      musicCounter0 := 0, musicCounter1 := 0, musicCounter2 := 0
      musicFrequency0 := 0, musicFrequency1 := 0, musicFrequency2 := 0
      musicWaveformSize0 := 27, musicWaveformSize1 := 27, musicWaveformSize2 := 27 } 6).2

/-- `CartridgeBUS::reset` with `ramrandom` off: zero the RAM above the
driver copy, re-base both cycle counters, clear the fractional accumulator,
run `setInitialState` (driver copy, waveform sizes, mode byte) and switch to
the startup bank. -/
def resetCart (s : CartState) (now : Int) : CartState :=
  (bank
    { s with
      busRAM := fun i =>
        if i < 2048 then s.image i else if i < 8192 then 0 else s.busRAM i
      systemCycles := now
      armCycles := now
      fractionalClocks := 0
      mode := 0xFF
      musicWaveformSize0 := 27, musicWaveformSize1 := 27, musicWaveformSize2 := 27 } 6).2

/-- One typed item of the opaque serialization stream (`Serializer`): the
fields `CartridgeBUS::save` emits and `CartridgeBUS::load` consumes. -/
inductive SerItem where
  | sStr (v : String)
  | sByte (v : Nat)
  | sShort (v : Nat)
  | sInt (v : Nat)
  | sByteArr (v : List Nat)
  | sIntArr (v : List Nat)

/-- The component name used as the serialization type tag
(`CartridgeBUS::name`, declared in the missing class header). -/
def busName : String := "CartridgeBUS"

/-- `Serializer::putInt` applied to an `Int32` counter: the value reduced
modulo `2^32` to its unsigned representation. -/
def int32ToU32 (c : Int) : Nat := (c % 4294967296).toNat

/-- The `(Int32)` cast of `Serializer::getInt`'s `uInt32` result: two's
complement reinterpretation. -/
def u32ToInt32 (n : Nat) : Int :=
  if n % 4294967296 < 2147483648 then (n % 4294967296 : Nat)
  else (n % 4294967296 : Nat) - 4294967296

/-- The `uInt32(...)` cast of the scaled fractional-clock accumulator in
`CartridgeBUS::save`: truncation toward zero of `frac * 10^8`, reduced
modulo `2^32`. -/
def fracToU32 (q : ℚ) : Nat := (ratTrunc (q * 100000000)).toNat % 4294967296

/-- `CartridgeBUS::save`: the exact field order written to the stream. -/
def save (s : CartState) : List SerItem :=
  [ SerItem.sStr busName
  , SerItem.sShort s.currentBank
  , SerItem.sByteArr (List.ofFn (fun i : Fin 8192 => s.busRAM i))
  , SerItem.sShort s.busOverdriveAddress
  , SerItem.sShort s.styZeroPageAddress
  , SerItem.sShort s.jmpOperandAddress
  , SerItem.sInt (int32ToU32 s.systemCycles)
  , SerItem.sInt (fracToU32 s.fractionalClocks)
  , SerItem.sInt (int32ToU32 s.armCycles)
  , SerItem.sIntArr [s.musicCounter0, s.musicCounter1, s.musicCounter2]
  , SerItem.sIntArr [s.musicFrequency0, s.musicFrequency1, s.musicFrequency2]
  , SerItem.sByteArr [s.musicWaveformSize0, s.musicWaveformSize1, s.musicWaveformSize2]
  , SerItem.sByte s.mode
  , SerItem.sByte s.fastJumpActive ]

/-- The field-restoring tail of `CartridgeBUS::load` after the type tag has
been validated: restore every field in the order of `save` — a truncated or
type-mismatched stream aborts with `false`, leaving the fields already
consumed in place, exactly as the C++ `try`/`catch` does — and finally
re-enter the restored bank through `bank`, whose own result is
discarded. -/
def loadBody (s : CartState) (r1 : List SerItem) : Bool × CartState :=
  match r1 with
  | SerItem.sShort b :: r2 =>
    let s := { s with currentBank := b % 65536 }
    match r2 with
    | SerItem.sByteArr ram :: r3 =>
      if ram.length = 8192 then
        let s := { s with busRAM := fun i =>
            if i < 8192 then ram.getD i 0 % 256 else s.busRAM i }
        match r3 with
        | SerItem.sShort od :: SerItem.sShort sty :: SerItem.sShort jmp :: r4 =>
          let s := { s with
            busOverdriveAddress := od % 65536
            styZeroPageAddress := sty % 65536
            jmpOperandAddress := jmp % 65536 }
          match r4 with
          | SerItem.sInt cyc :: SerItem.sInt fr :: SerItem.sInt armc :: r5 =>
            let s := { s with
              systemCycles := u32ToInt32 cyc
              fractionalClocks := ((fr % 4294967296 : Nat) : ℚ) / 100000000
              armCycles := u32ToInt32 armc }
            match r5 with
            | SerItem.sIntArr cnt :: SerItem.sIntArr frq :: r6 =>
              if cnt.length = 3 ∧ frq.length = 3 then
                let s := { s with
                  musicCounter0 := cnt.getD 0 0 % 4294967296
                  musicCounter1 := cnt.getD 1 0 % 4294967296
                  musicCounter2 := cnt.getD 2 0 % 4294967296
                  musicFrequency0 := frq.getD 0 0 % 4294967296
                  musicFrequency1 := frq.getD 1 0 % 4294967296
                  musicFrequency2 := frq.getD 2 0 % 4294967296 }
                match r6 with
                | SerItem.sByteArr wsz :: SerItem.sByte md :: SerItem.sByte fj :: _ =>
                  if wsz.length = 3 then
                    let s := { s with
                      musicWaveformSize0 := wsz.getD 0 0 % 256
                      musicWaveformSize1 := wsz.getD 1 0 % 256
                      musicWaveformSize2 := wsz.getD 2 0 % 256
                      mode := md % 256
                      fastJumpActive := fj % 256 }
                    (true, (bank s s.currentBank).2)
                  else (false, s)
                | _ => (false, s)
              else (false, s)
            | _ => (false, s)
          | _ => (false, s)
        | _ => (false, s)
      else (false, s)
    | _ => (false, s)
  | _ => (false, s)

/-- `CartridgeBUS::load` (see `loadBody`): the leading type tag is validated
first; a mismatch fails without touching state. -/
def load (s : CartState) (items : List SerItem) : Bool × CartState :=
  match items with
  | SerItem.sStr tag :: r1 =>
    if tag = busName then loadBody s r1 else (false, s)
  | _ => (false, s)

/-- Well-formedness: every field fits the width of its C++ type.  (The two
cycle counters are `Int32`, the addresses are `uInt16`, the counters and
frequencies are `uInt32`, the rest are bytes.) -/
def WF (s : CartState) : Prop :=
  s.currentBank < 65536 ∧ s.mode < 256 ∧
  s.busOverdriveAddress < 65536 ∧ s.styZeroPageAddress < 65536 ∧
  s.jmpOperandAddress < 65536 ∧ s.fastJumpActive < 256 ∧
  -2147483648 ≤ s.systemCycles ∧ s.systemCycles < 2147483648 ∧
  -2147483648 ≤ s.armCycles ∧ s.armCycles < 2147483648 ∧
  s.musicCounter0 < 4294967296 ∧ s.musicCounter1 < 4294967296 ∧
  s.musicCounter2 < 4294967296 ∧
  s.musicFrequency0 < 4294967296 ∧ s.musicFrequency1 < 4294967296 ∧
  s.musicFrequency2 < 4294967296 ∧
  s.musicWaveformSize0 < 256 ∧ s.musicWaveformSize1 < 256 ∧
  s.musicWaveformSize2 < 256 ∧
  (∀ i, i < 8192 → s.busRAM i < 256)

/-- The cartridge states reachable from power-up through the host-bus
interface: construction/reset from some ROM image, peeks, pokes (with the
Thumb interpreter left inert), bank selects, patches, debugger
lock/unlock, loads of arbitrary streams, and resets. -/
inductive Reachable : CartState → Prop where
  | base (img : Nat → Nat) (now : Int) : Reachable (initialState img now)
  | rpeek (s : CartState) (now : Int) (a : Nat) :
      Reachable s → Reachable (peek s now a).2
  | rpoke (s : CartState) (now : Int) (a v : Nat) :
      Reachable s → Reachable (poke s now id a v).2.2
  | rbank (s : CartState) (b : Nat) : Reachable s → Reachable (bank s b).2
  | rpatch (s : CartState) (a v : Nat) : Reachable s → Reachable (patch s a v).2
  | rlock (s : CartState) : Reachable s → Reachable (lockBank s)
  | runlock (s : CartState) : Reachable s → Reachable (unlockBank s)
  | rload (s : CartState) (items : List SerItem) :
      Reachable s → Reachable (load s items).2
  | rreset (s : CartState) (now : Int) : Reachable s → Reachable (resetCart s now)

/-- An all-zero cartridge state (waveform sizes at their reset default) used
to instantiate theorems at concrete inputs. -/
def zeroState : CartState :=
  { image := fun _ => 0
    busRAM := fun _ => 0
    pageMap := fun _ => 0
    currentBank := 0
    mode := 0
    busOverdriveAddress := 0
    styZeroPageAddress := 0
    jmpOperandAddress := 0
    fastJumpActive := 0
    bankChanged := false
    bankLocked := false
    systemCycles := 0
    armCycles := 0
    fractionalClocks := 0
    musicCounter0 := 0, musicCounter1 := 0, musicCounter2 := 0
    musicFrequency0 := 0, musicFrequency1 := 0, musicFrequency2 := 0
    musicWaveformSize0 := 27, musicWaveformSize1 := 27, musicWaveformSize2 := 27 }

/-- The raw waveform base index before clamping: the little-endian decode of
the waveform-offset table entry minus the origin `0x40000800` in `uInt32`
arithmetic. -/
def waveformRawIndex (s : CartState) (i : Nat) : Nat :=
  ((s.busRAM (WAVEFORM + i * 4 + 0) +
    (s.busRAM (WAVEFORM + i * 4 + 1) <<< 8) +
    (s.busRAM (WAVEFORM + i * 4 + 2) <<< 16) +
    (s.busRAM (WAVEFORM + i * 4 + 3) <<< 24)) % 4294967296 +
   (4294967296 - 0x40000800)) % 4294967296

/-- A cartridge state whose stream-0 increment table entry holds the 32-bit
value `0x00010000` (bit 16 set) with the stream-0 pointer at 0. -/
def c4state : CartState :=
  { zeroState with busRAM := fun i => if i = DSxINC + 2 then 1 else 0 }

/-- C2 witness: a concrete bank-0 cartridge with `4C 00 00` at `0x200` runs
the armed sequence down to count 0. -/
def c2wit : CartState :=
  { zeroState with image := fun i => if i = 4096 + 0x200 then 0x4C else 0 }

/-- ROM image for the first C3 counterexample state: bank 6 holds
`STY $20` (`84 20`) at window address `0x100`. -/
def c3img1 : Nat → Nat := fun i =>
  if i = 28928 then 0x84 else if i = 28929 then 0x20 else 0

/-- ROM image for the second C3 counterexample state: bank 6 holds
`STY $25` (`84 25`) at window address `0x100`, and the driver byte that
becomes address-map entry `0x25` is 1. -/
def c3img2 : Nat → Nat := fun i =>
  if i = 28928 then 0x84 else if i = 28929 then 0x25 else if i = 0x7F4 then 1 else 0

/-- Reachable state with the override armed at `0x20` and display byte 0
(the next stream-0 byte) equal to `0xFF`: power-up on `c3img1`, enable bus
stuffing, write `0xFF` through the command stream, then peek the `STY`
opcode and its operand. -/
def c3s1 : CartState :=
  (peek (peek (poke (poke (initialState c3img1 0) 0 id 0x1FF2 0).2.2
      0 id 0x1FF0 0xFF).2.2 0 0x100).2 0 0x101).2

/-- Reachable state with the override armed at `0x25` (map index above the
TIA range) and map entry `0x25` equal to 1. -/
def c3s2 : CartState :=
  (peek (peek (poke (initialState c3img2 0) 0 id 0x1FF2 0).2.2 0 0x100).2 0 0x101).2

/-- The serialization stream of a cartridge in bank 3 with all-zero
registers and RAM, as fed to `load` while the bank is locked. -/
def c1items : List SerItem :=
  [ SerItem.sStr busName
  , SerItem.sShort 3
  , SerItem.sByteArr (List.replicate 8192 0)
  , SerItem.sShort 0, SerItem.sShort 0, SerItem.sShort 0
  , SerItem.sInt 0, SerItem.sInt 0, SerItem.sInt 0
  , SerItem.sIntArr [0, 0, 0]
  , SerItem.sIntArr [0, 0, 0]
  , SerItem.sByteArr [0, 0, 0]
  , SerItem.sByte 0, SerItem.sByte 0 ]

/-- A reachable cartridge state whose bank register (3) disagrees with the
host-bus page table (still mapping bank 6): power up, lock the bank from
the debugger, then load a bank-3 snapshot — the trailing `bank` call is
refused by the lock. -/
def c1s0 : CartState :=
  (load (lockBank (initialState (fun _ => 0) 0)) c1items).2

/-- Recomposing the four little-endian bytes of a 32-bit value yields the
value back. -/
theorem le4_roundtrip (v : Nat) (hv : v < 4294967296) :
    v % 256 + ((v >>> 8) % 256) <<< 8 + ((v >>> 16) % 256) <<< 16 +
      ((v >>> 24) % 256) <<< 24 = v := by
  simp only [Nat.shiftRight_eq_div_pow, Nat.shiftLeft_eq]
  norm_num
  omega

/-- Reading back a freshly stored datastream pointer. -/
theorem getSet_datastreamPointer (s : CartState) (idx v : Nat) (hv : v < 4294967296) :
    getDatastreamPointer (setDatastreamPointer s idx v) idx = v := by
  unfold getDatastreamPointer setDatastreamPointer
  norm_num
  exact le4_roundtrip v hv

/-- Reading back a freshly stored address-map entry. -/
theorem getSet_addressMap (s : CartState) (idx v : Nat) (hv : v < 4294967296) :
    getAddressMap (setAddressMap s idx v) idx = v := by
  unfold getAddressMap setAddressMap
  norm_num
  exact le4_roundtrip v hv

/-- `Int32` values survive the unsigned serialization. -/
theorem int32_roundtrip (c : Int) (h1 : -2147483648 ≤ c) (h2 : c < 2147483648) :
    u32ToInt32 (int32ToU32 c) = c := by
  unfold u32ToInt32 int32ToU32
  split <;> omega

/-- An exactly representable fractional-clock accumulator survives the
scaled-integer serialization. -/
theorem frac_roundtrip (k : Nat) (hk : k < 4294967296) :
    ((fracToU32 ((k : ℚ) / 100000000) % 4294967296 : Nat) : ℚ) / 100000000 =
      (k : ℚ) / 100000000 := by
  have h : ((k : ℚ) / 100000000) * 100000000 = (k : ℚ) := by
    field_simp
  unfold fracToU32 ratTrunc
  rw [h]
  norm_num [Rat.num_natCast, Rat.den_natCast, Nat.mod_eq_of_lt hk]

theorem getD_ofFn (n : Nat) (f : Fin n → Nat) (i : Nat) (h : i < n) :
    (List.ofFn f).getD i 0 = f ⟨i, h⟩ := by
  rw [List.getD_eq_getElem?_getD, List.getElem?_ofFn]
  unfold List.ofFnNthVal
  rw [dif_pos h]
  rfl

/-- `WF` holds at the all-zero state. -/
theorem zeroState_WF : WF zeroState := by
  have hr : ∀ i, i < 8192 → zeroState.busRAM i < 256 := by
    intro i hi
    show (0 : Nat) < 256
    decide
  unfold WF
  repeat' apply And.intro
  all_goals first | exact hr | decide

/-- `peek` in the opcode-pattern detector branch: bank unlocked, no fast
jump armed, bus stuffing on, and the ROM bytes at the peeked address are
`4C 00 00` — the peek returns the opcode byte and arms a 2-count fast jump
at the following address. -/
theorem peek_arms_fastjump (s : CartState) (now : Int) (addr : Nat)
    (hlock : s.bankLocked = false)
    (hfj : s.fastJumpActive = 0)
    (hstuff : s.mode &&& 0x0F = 0)
    (haddr : addr < 4096)
    (h4c : s.image (4096 + (s.currentBank <<< 12) + addr) = 0x4C)
    (h01 : s.image (4096 + (s.currentBank <<< 12) + addr + 1) = 0)
    (h02 : s.image (4096 + (s.currentBank <<< 12) + addr + 2) = 0) :
    peek s now addr =
      (0x4C, { s with fastJumpActive := 2, jmpOperandAddress := (addr + 1) % 65536 }) := by
  unfold peek
  dsimp only
  rw [Nat.mod_eq_of_lt haddr]
  rw [if_neg (by simp [hlock]), if_neg (by simp [hfj]),
      if_pos ⟨hstuff, h4c, h01, h02⟩, h4c]

/-- `peek` in the fast-jump branch: with the armed count nonzero and the
address matching the recorded operand address, one byte is drawn from the
indirect-jump stream, the armed count decremented, the operand address
advanced, and the stream pointer moved one integer position. -/
theorem peek_fastjump_stream (s : CartState) (now : Int) (addr : Nat)
    (hlock : s.bankLocked = false)
    (hfj : s.fastJumpActive ≠ 0)
    (hj : s.jmpOperandAddress = addr)
    (haddr : addr < 4096) :
    peek s now addr =
      (s.busRAM (DSRAM + (getDatastreamPointer s JUMPSTREAM >>> 20)),
       setDatastreamPointer
         { s with fastJumpActive := s.fastJumpActive - 1,
                  jmpOperandAddress := (s.jmpOperandAddress + 1) % 65536 }
         JUMPSTREAM ((getDatastreamPointer s JUMPSTREAM + 0x100000) % 4294967296)) := by
  unfold peek
  dsimp only
  rw [Nat.mod_eq_of_lt haddr]
  rw [if_neg (by simp [hlock]), if_pos ⟨hfj, hj⟩]

/-- A low-address poke (below the hotspot window): the value is masked by
`busOverdrive` and the `changed` result is `false`. -/
theorem poke_low (s : CartState) (now : Int) (arm : CartState → CartState)
    (a v : Nat) (hlow : a &&& 0x1000 = 0) :
    poke s now arm a v = (false, v &&& (busOverdrive s a).1, (busOverdrive s a).2) := by
  unfold poke
  rw [if_pos hlow]

/-- `busOverdrive` at a non-matching address: neutral mask, pending address
cleared to the sentinel. -/
theorem busOverdrive_miss (s : CartState) (a : Nat) (h : a ≠ s.busOverdriveAddress) :
    busOverdrive s a = (0xFF, { s with busOverdriveAddress := 0xFF }) := by
  unfold busOverdrive
  dsimp only
  rw [if_neg h]

/-- `busOverdrive` at the pending address when its low 7 bits do not name a
TIA register (`map > 0x24`): neutral mask, no datastream read, no map
rotation, pending address cleared. -/
theorem busOverdrive_far (s : CartState) (a : Nat) (h : a = s.busOverdriveAddress)
    (hm : ¬ (a &&& 0x7F ≤ 0x24)) :
    busOverdrive s a = (0xFF, { s with busOverdriveAddress := 0xFF }) := by
  unfold busOverdrive
  dsimp only
  rw [if_pos h, if_neg hm]

/-- `busOverdrive` at the pending address with a TIA-register map index:
the mask is one byte read from the stream named by the map entry's low
nybble, the map entry is rotated once, the pending address cleared. -/
theorem busOverdrive_hit (s : CartState) (a : Nat) (h : a = s.busOverdriveAddress)
    (hm : a &&& 0x7F ≤ 0x24) :
    busOverdrive s a =
      ((readFromDatastream s (getAddressMap s (a &&& 0x7F) &&& 0x0F)).1,
       { setAddressMap (readFromDatastream s (getAddressMap s (a &&& 0x7F) &&& 0x0F)).2
           (a &&& 0x7F)
           (((getAddressMap s (a &&& 0x7F) >>> 4) |||
             ((getAddressMap s (a &&& 0x7F) &&& 0x0F) <<< 28)) % 4294967296)
         with busOverdriveAddress := 0xFF }) := by
  unfold busOverdrive
  dsimp only
  rw [if_pos h, if_pos hm]

/-- The value component of `readFromDatastream`. -/
theorem readFromDatastream_fst (s : CartState) (i : Nat) :
    (readFromDatastream s i).1 =
      s.busRAM (DSRAM + (getDatastreamPointer s i >>> 20)) := rfl

/-- The music update leaves the mode byte unchanged. -/
theorem updateMusic_mode (s : CartState) (now : Int) :
    (updateMusicModeDataFetchers s now).mode = s.mode := by
  unfold updateMusicModeDataFetchers
  dsimp only
  split_ifs <;> rfl

/-- The music update leaves the ROM unchanged. -/
theorem updateMusic_image (s : CartState) (now : Int) :
    (updateMusicModeDataFetchers s now).image = s.image := by
  unfold updateMusicModeDataFetchers
  dsimp only
  split_ifs <;> rfl

/-- The music update leaves the Harmony RAM unchanged. -/
theorem updateMusic_busRAM (s : CartState) (now : Int) :
    (updateMusicModeDataFetchers s now).busRAM = s.busRAM := by
  unfold updateMusicModeDataFetchers
  dsimp only
  split_ifs <;> rfl

/-- The music update leaves the waveform sizes unchanged. -/
theorem updateMusic_wsize0 (s : CartState) (now : Int) :
    (updateMusicModeDataFetchers s now).musicWaveformSize0 = s.musicWaveformSize0 := by
  unfold updateMusicModeDataFetchers
  dsimp only
  split_ifs <;> rfl

/-- The music update leaves the waveform sizes unchanged. -/
theorem updateMusic_wsize1 (s : CartState) (now : Int) :
    (updateMusicModeDataFetchers s now).musicWaveformSize1 = s.musicWaveformSize1 := by
  unfold updateMusicModeDataFetchers
  dsimp only
  split_ifs <;> rfl

/-- The music update leaves the waveform sizes unchanged. -/
theorem updateMusic_wsize2 (s : CartState) (now : Int) :
    (updateMusicModeDataFetchers s now).musicWaveformSize2 = s.musicWaveformSize2 := by
  unfold updateMusicModeDataFetchers
  dsimp only
  split_ifs <;> rfl

/-- Voice 0's counter after the music update, as a formula over the clock
fields. -/
theorem updateMusic_counter0 (s : CartState) (now : Int) :
    (updateMusicModeDataFetchers s now).musicCounter0 =
      if ratTrunc (busClocks s now) ≤ 0 then s.musicCounter0
      else (s.musicCounter0 +
        s.musicFrequency0 * (ratTrunc (busClocks s now)).toNat) % 4294967296 := by
  unfold updateMusicModeDataFetchers
  dsimp only
  split_ifs <;> rfl

/-- Voice 1's counter after the music update. -/
theorem updateMusic_counter1 (s : CartState) (now : Int) :
    (updateMusicModeDataFetchers s now).musicCounter1 =
      if ratTrunc (busClocks s now) ≤ 0 then s.musicCounter1
      else (s.musicCounter1 +
        s.musicFrequency1 * (ratTrunc (busClocks s now)).toNat) % 4294967296 := by
  unfold updateMusicModeDataFetchers
  dsimp only
  split_ifs <;> rfl

/-- Voice 2's counter after the music update. -/
theorem updateMusic_counter2 (s : CartState) (now : Int) :
    (updateMusicModeDataFetchers s now).musicCounter2 =
      if ratTrunc (busClocks s now) ≤ 0 then s.musicCounter2
      else (s.musicCounter2 +
        s.musicFrequency2 * (ratTrunc (busClocks s now)).toNat) % 4294967296 := by
  unfold updateMusicModeDataFetchers
  dsimp only
  split_ifs <;> rfl

/-- The byte driven onto the bus by `peek` does not depend on the host-bus
page table or the bank-changed flag: those fields are written by `bank` but
never read on the peek path. -/
theorem peek_fst_congr (s : CartState) (P : Nat → Nat) (B : Bool) (now : Int) (a : Nat) :
    (peek { s with pageMap := P, bankChanged := B } now a).1 = (peek s now a).1 := by
  unfold peek
  simp only [apply_ite (Prod.fst : Nat × CartState → Nat),
    readFromDatastream_fst,
    updateMusic_mode, updateMusic_image, updateMusic_busRAM,
    updateMusic_wsize0, updateMusic_wsize1, updateMusic_wsize2,
    updateMusic_counter0, updateMusic_counter1, updateMusic_counter2,
    getSample, getWaveform, getDatastreamPointer, busClocks,
    apply_ite CartState.mode, apply_ite CartState.image, apply_ite CartState.busRAM,
    apply_ite CartState.musicCounter0, apply_ite CartState.musicCounter1,
    apply_ite CartState.musicCounter2,
    apply_ite CartState.musicWaveformSize0, apply_ite CartState.musicWaveformSize1,
    apply_ite CartState.musicWaveformSize2,
    apply_ite CartState.musicFrequency0, apply_ite CartState.musicFrequency1,
    apply_ite CartState.musicFrequency2,
    apply_ite CartState.systemCycles, apply_ite CartState.fractionalClocks,
    ite_apply, ite_self]

/-- A well-formed state whose fractional-clock accumulator is an exact
multiple of `10^-8` is reproduced field-for-field by `load` of its own
`save` stream; the trailing `bank` call re-enters the current bank. -/
theorem save_load_roundtrip (s : CartState) (hWF : WF s)
    (k : Nat) (hk : k < 4294967296) (hfrac : s.fractionalClocks = (k : ℚ) / 100000000) :
    load s (save s) = (true, (bank s s.currentBank).2) := by
  obtain ⟨hb, hmode, hod, hsty, hjmp, hfj, hc1, hc2, ha1, ha2, hm0, hm1, hm2,
    hf0, hf1, hf2, hw0, hw1, hw2, hram⟩ := hWF
  have eram : (fun i => if i < 8192 then
      (List.ofFn fun j : Fin 8192 => s.busRAM j).getD i 0 % 256 else s.busRAM i)
      = s.busRAM := by
    funext i
    by_cases hi : i < 8192
    · rw [if_pos hi, getD_ofFn 8192 _ i hi, Nat.mod_eq_of_lt (hram i hi)]
    · rw [if_neg hi]
  have efrac : ((fracToU32 s.fractionalClocks % 4294967296 : Nat) : ℚ) / 100000000
      = s.fractionalClocks := by
    rw [hfrac]
    exact frac_roundtrip k hk
  unfold save load
  dsimp only
  rw [if_pos rfl]
  unfold loadBody
  dsimp only [List.getD_cons_zero, List.getD_cons_succ]
  have hlen : (List.ofFn fun j : Fin 8192 => s.busRAM j).length = 8192 :=
    List.length_ofFn _
  rw [if_pos hlen,
      if_pos (show
        [s.musicCounter0, s.musicCounter1, s.musicCounter2].length = 3 ∧
         [s.musicFrequency0, s.musicFrequency1, s.musicFrequency2].length = 3
        from ⟨by rfl, by rfl⟩),
      if_pos (show
        [s.musicWaveformSize0, s.musicWaveformSize1, s.musicWaveformSize2].length = 3
        from by rfl)]
  rw [eram, efrac, int32_roundtrip _ hc1 hc2, int32_roundtrip _ ha1 ha2,
      Nat.mod_eq_of_lt hb, Nat.mod_eq_of_lt hmode, Nat.mod_eq_of_lt hod,
      Nat.mod_eq_of_lt hsty, Nat.mod_eq_of_lt hjmp, Nat.mod_eq_of_lt hfj,
      Nat.mod_eq_of_lt hm0, Nat.mod_eq_of_lt hm1, Nat.mod_eq_of_lt hm2,
      Nat.mod_eq_of_lt hf0, Nat.mod_eq_of_lt hf1, Nat.mod_eq_of_lt hf2,
      Nat.mod_eq_of_lt hw0, Nat.mod_eq_of_lt hw1, Nat.mod_eq_of_lt hw2]

/-- `load` of a state's own `save` stream always parses (returns `true`),
and when the bank lock is held the trailing `bank` call is refused, leaving
the host-bus page table exactly as it was. -/
theorem load_save_parses (s : CartState) :
    (load s (save s)).1 = true ∧
    (s.bankLocked = true → (load s (save s)).2.pageMap = s.pageMap) := by
  unfold save load
  dsimp only
  rw [if_pos rfl]
  unfold loadBody
  dsimp only
  have hlen : (List.ofFn fun j : Fin 8192 => s.busRAM j).length = 8192 :=
    List.length_ofFn _
  rw [if_pos hlen,
      if_pos (show
        [s.musicCounter0, s.musicCounter1, s.musicCounter2].length = 3 ∧
         [s.musicFrequency0, s.musicFrequency1, s.musicFrequency2].length = 3
        from ⟨by rfl, by rfl⟩),
      if_pos (show
        [s.musicWaveformSize0, s.musicWaveformSize1, s.musicWaveformSize2].length = 3
        from by rfl)]
  refine ⟨rfl, ?_⟩
  intro hl
  unfold bank
  rw [if_pos hl]

/-- C1 (amended): for every well-formed cartridge state whose
fractional-clock accumulator is an exact multiple of `10^-8` (any state
`load` itself produces is of this form) and whose bank lock is NOT held,
`save()` then `load()` succeeds and restores an indistinguishable state:
every `peek` (including the amplitude read at `0xFEE`) and `getBank` return
identical results, and the restored bank index is re-applied through the
normal `bank` operation, which remaps every host-bus page of the
`0x1040`-`0x1FFF` window to the restored bank.  When the lock is held the
remap is refused by `bank` (see the counterexample). -/
theorem C1_save_load_restores (s : CartState) (hWF : WF s)
    (k : Nat) (hk : k < 4294967296)
    (hfrac : s.fractionalClocks = (k : ℚ) / 100000000)
    (hlock : s.bankLocked = false) :
    (load s (save s)).1 = true ∧
    (∀ now a, (peek (load s (save s)).2 now a).1 = (peek s now a).1) ∧
    getBank (load s (save s)).2 = getBank s ∧
    (∀ p, 0x1040 ≤ p → p < 0x2000 →
      (load s (save s)).2.pageMap p = (s.currentBank <<< 12) + p % 4096) := by
  rw [save_load_roundtrip s hWF k hk hfrac]
  unfold bank
  rw [if_neg (by simp [hlock]), Nat.mod_eq_of_lt hWF.1]
  refine ⟨rfl, ?_, rfl, ?_⟩
  · intro now a
    exact peek_fst_congr s _ _ now a
  · intro p h1 h2
    have hp : 0x1040 ≤ p ∧ p < 0x2000 := ⟨h1, h2⟩
    simp [hp]

/-- C1 witness at the all-zero state. -/
theorem C1_witness :
    WF zeroState ∧ (0 : Nat) < 4294967296 ∧
    zeroState.fractionalClocks = ((0 : Nat) : ℚ) / 100000000 ∧
    zeroState.bankLocked = false ∧
    (load zeroState (save zeroState)).1 = true ∧
    getBank (load zeroState (save zeroState)).2 = getBank zeroState :=
  ⟨zeroState_WF, by decide, by show (0 : ℚ) = ((0 : Nat) : ℚ) / 100000000; norm_num, rfl,
    (C1_save_load_restores zeroState zeroState_WF 0 (by decide)
      (by show (0 : ℚ) = ((0 : Nat) : ℚ) / 100000000; norm_num) rfl).1,
    (C1_save_load_restores zeroState zeroState_WF 0 (by decide)
      (by show (0 : ℚ) = ((0 : Nat) : ℚ) / 100000000; norm_num) rfl).2.2.1⟩

/-- The fields of `c1s0` that the counterexample consults: the lock is
held, the bank register was restored to 3, and the page table is still the
power-up one (the trailing `bank` call of `load` was refused). -/
theorem c1s0_fields :
    c1s0.bankLocked = true ∧ c1s0.currentBank = 3 ∧
    c1s0.pageMap = (initialState (fun _ => 0) 0).pageMap := by
  unfold c1s0 c1items load loadBody
  dsimp only
  rw [if_pos rfl,
      if_pos (List.length_replicate 8192 (0 : Nat)),
      if_pos (show ([0, 0, 0] : List Nat).length = 3 ∧ ([0, 0, 0] : List Nat).length = 3
        from ⟨by rfl, by rfl⟩),
      if_pos (show ([0, 0, 0] : List Nat).length = 3 from by rfl)]
  unfold bank
  rw [if_pos (by rfl)]
  exact ⟨rfl, by norm_num, rfl⟩

/-- C1 counterexample: at the reachable locked state `c1s0` the round trip
`load (save c1s0)` succeeds, yet the restored bank index 3 is NOT
re-applied to the host-bus pages: page `0x1040` still maps bank 6's offset
`0x6040`, not bank 3's `0x3040` — `load` only attempts the remap through
`bank`, which the held lock refuses. -/
theorem C1_counterexample :
    Reachable c1s0 ∧
    c1s0.bankLocked = true ∧
    getBank c1s0 = 3 ∧
    (load c1s0 (save c1s0)).1 = true ∧
    (load c1s0 (save c1s0)).2.pageMap 0x1040 = (6 <<< 12) + 0x40 ∧
    (getBank c1s0 <<< 12) + (0x1040 % 4096) = (3 <<< 12) + 0x40 ∧
    (6 : Nat) <<< 12 + 0x40 ≠ (3 : Nat) <<< 12 + 0x40 := by
  obtain ⟨hA, hB, hC⟩ := c1s0_fields
  refine ⟨Reachable.rload _ _ (Reachable.rlock _ (Reachable.base _ _)),
    hA, ?_, (load_save_parses c1s0).1, ?_, ?_, by decide⟩
  · unfold getBank
    rw [hB]
  · rw [(load_save_parses c1s0).2 hA, hC]
    decide
  · unfold getBank
    rw [hB]

/-- C2: with bus stuffing enabled, the bank unlocked and no fast jump armed,
if the ROM bytes at the peeked address of the active bank are `4C 00 00`,
the first peek returns the opcode byte `0x4C` unmodified and arms a 2-count
fast jump at `addr+1`; the next two peeks, at `addr+1` and `addr+2`, each
return one byte drawn from the indirect-jump stream 17 (at its current and
then next integer position) and decrement the armed count down to 0, after
which the operand address points past the operand and normal hotspot
decoding resumes.  The second and third peek are served from the stream
before the opcode detector and the hotspot switch are even consulted, for
any address in range — the fast-jump detector has priority on every
access. -/
theorem C2_fastjump_sequence (s : CartState) (now1 now2 now3 : Int) (addr : Nat)
    (hlock : s.bankLocked = false)
    (hstuff : s.mode &&& 0x0F = 0)
    (hfj : s.fastJumpActive = 0)
    (haddr : addr ≤ 0xFFD)
    (h4c : s.image (4096 + (s.currentBank <<< 12) + addr) = 0x4C)
    (h01 : s.image (4096 + (s.currentBank <<< 12) + addr + 1) = 0)
    (h02 : s.image (4096 + (s.currentBank <<< 12) + addr + 2) = 0) :
    (peek s now1 addr).1 = 0x4C ∧
    (peek s now1 addr).2.fastJumpActive = 2 ∧
    (peek s now1 addr).2.jmpOperandAddress = addr + 1 ∧
    ((peek (peek s now1 addr).2 now2 (addr + 1)).1 =
      s.busRAM (DSRAM + (getDatastreamPointer s JUMPSTREAM >>> 20))) ∧
    (peek (peek s now1 addr).2 now2 (addr + 1)).2.fastJumpActive = 1 ∧
    getDatastreamPointer (peek (peek s now1 addr).2 now2 (addr + 1)).2 JUMPSTREAM =
      (getDatastreamPointer s JUMPSTREAM + 0x100000) % 4294967296 ∧
    ((peek (peek (peek s now1 addr).2 now2 (addr + 1)).2 now3 (addr + 2)).1 =
      (peek (peek s now1 addr).2 now2 (addr + 1)).2.busRAM
        (DSRAM + (((getDatastreamPointer s JUMPSTREAM + 0x100000) % 4294967296) >>> 20))) ∧
    (peek (peek (peek s now1 addr).2 now2 (addr + 1)).2 now3 (addr + 2)).2.fastJumpActive
      = 0 ∧
    (peek (peek (peek s now1 addr).2 now2 (addr + 1)).2 now3 (addr + 2)).2.jmpOperandAddress
      = addr + 3 := by
  have e1 : peek s now1 addr =
      (0x4C, { s with fastJumpActive := 2, jmpOperandAddress := (addr + 1) % 65536 }) :=
    peek_arms_fastjump s now1 addr hlock hfj hstuff (by omega) h4c h01 h02
  have hm1 : (addr + 1) % 65536 = addr + 1 := by omega
  rw [hm1] at e1
  rw [e1]
  refine ⟨rfl, rfl, rfl, ?_⟩
  set s1 : CartState :=
    { s with fastJumpActive := 2, jmpOperandAddress := addr + 1 } with hs1
  have e2 : peek s1 now2 (addr + 1) =
      (s1.busRAM (DSRAM + (getDatastreamPointer s1 JUMPSTREAM >>> 20)),
       setDatastreamPointer
         { s1 with fastJumpActive := 2 - 1,
                   jmpOperandAddress := (addr + 1 + 1) % 65536 }
         JUMPSTREAM ((getDatastreamPointer s1 JUMPSTREAM + 0x100000) % 4294967296)) :=
    peek_fastjump_stream s1 now2 (addr + 1) hlock (by norm_num) rfl (by omega)
  have hm2 : (addr + 1 + 1) % 65536 = addr + 2 := by omega
  rw [hm2] at e2
  have hp1 : getDatastreamPointer s1 JUMPSTREAM = getDatastreamPointer s JUMPSTREAM := rfl
  rw [hp1] at e2
  rw [e2]
  have hptr : getDatastreamPointer
      (setDatastreamPointer
        { s1 with fastJumpActive := 2 - 1, jmpOperandAddress := addr + 2 }
        JUMPSTREAM ((getDatastreamPointer s JUMPSTREAM + 0x100000) % 4294967296))
      JUMPSTREAM = (getDatastreamPointer s JUMPSTREAM + 0x100000) % 4294967296 :=
    getSet_datastreamPointer _ _ _ (Nat.mod_lt _ (by norm_num))
  refine ⟨rfl, rfl, hptr, ?_⟩
  set s2 : CartState :=
    setDatastreamPointer
      { s1 with fastJumpActive := 2 - 1, jmpOperandAddress := addr + 2 }
      JUMPSTREAM ((getDatastreamPointer s JUMPSTREAM + 0x100000) % 4294967296) with hs2
  have e3 : peek s2 now3 (addr + 2) =
      (s2.busRAM (DSRAM + (getDatastreamPointer s2 JUMPSTREAM >>> 20)),
       setDatastreamPointer
         { s2 with fastJumpActive := s2.fastJumpActive - 1,
                   jmpOperandAddress := (s2.jmpOperandAddress + 1) % 65536 }
         JUMPSTREAM ((getDatastreamPointer s2 JUMPSTREAM + 0x100000) % 4294967296)) :=
    peek_fastjump_stream s2 now3 (addr + 2) hlock
      (by rw [hs2]; exact Nat.one_ne_zero) (by rw [hs2]; exact rfl) (by omega)
  rw [e3]
  have hm3 : (s2.jmpOperandAddress + 1) % 65536 = addr + 3 := by
    have hj2 : s2.jmpOperandAddress = addr + 2 := by rw [hs2]; exact rfl
    omega
  refine ⟨?_, rfl, ?_⟩
  · rw [hptr]
  · rw [hm3]
    exact rfl

/-- C2 witness theorem (see `c2wit`). -/
theorem C2_witness :
    c2wit.bankLocked = false ∧ c2wit.mode &&& 0x0F = 0 ∧ c2wit.fastJumpActive = 0 ∧
    (0x200 : Nat) ≤ 0xFFD ∧
    c2wit.image (4096 + (c2wit.currentBank <<< 12) + 0x200) = 0x4C ∧
    c2wit.image (4096 + (c2wit.currentBank <<< 12) + 0x200 + 1) = 0 ∧
    c2wit.image (4096 + (c2wit.currentBank <<< 12) + 0x200 + 2) = 0 ∧
    (peek c2wit 0 0x200).1 = 0x4C ∧
    (peek (peek c2wit 0 0x200).2 0 0x201).2.fastJumpActive = 1 ∧
    (peek (peek (peek c2wit 0 0x200).2 0 0x201).2 0 0x202).2.fastJumpActive = 0 :=
  ⟨rfl, by decide, rfl, by decide, by decide, by decide, by decide,
    (C2_fastjump_sequence c2wit 0 0 0 0x200 rfl (by decide) rfl (by decide)
      (by decide) (by decide) (by decide)).1,
    (C2_fastjump_sequence c2wit 0 0 0 0x200 rfl (by decide) rfl (by decide)
      (by decide) (by decide) (by decide)).2.2.2.2.1,
    (C2_fastjump_sequence c2wit 0 0 0 0x200 rfl (by decide) rfl (by decide)
      (by decide) (by decide) (by decide)).2.2.2.2.2.2.2.1⟩

/-- C3 (amended): on every bus write below the hotspot window the pending
override address is cleared to the sentinel `0xFF` afterwards, armed or
not; a poke to a non-pending address forwards the value untouched; a poke
to the pending address `A` whose low 7 bits index a TIA register
(`≤ 0x24`) forwards the bitwise AND of the written value with the
stream-derived byte (so the stream byte replaces the value only when `0xFF`
is written) and rotates that map entry exactly once; a poke to a pending
`A` whose map index is above `0x24` forwards the value untouched and
rotates nothing. -/
theorem C3_bus_override (s : CartState) (now : Int) (arm : CartState → CartState)
    (a v : Nat) (hlow : a &&& 0x1000 = 0) (hv : v < 256) :
    (a ≠ s.busOverdriveAddress →
      poke s now arm a v = (false, v, { s with busOverdriveAddress := 0xFF })) ∧
    (a = s.busOverdriveAddress → a &&& 0x7F ≤ 0x24 →
      (poke s now arm a v).2.1 =
        v &&& (readFromDatastream s (getAddressMap s (a &&& 0x7F) &&& 0x0F)).1 ∧
      getAddressMap (poke s now arm a v).2.2 (a &&& 0x7F) =
        ((getAddressMap s (a &&& 0x7F) >>> 4) |||
          ((getAddressMap s (a &&& 0x7F) &&& 0x0F) <<< 28)) % 4294967296 ∧
      (poke s now arm a v).2.2.busOverdriveAddress = 0xFF) ∧
    (a = s.busOverdriveAddress → ¬ (a &&& 0x7F ≤ 0x24) →
      poke s now arm a v = (false, v, { s with busOverdriveAddress := 0xFF })) := by
  have hand : v &&& 0xFF = v := by
    have h255 : (0xFF : Nat) = 2 ^ 8 - 1 := by norm_num
    rw [h255, Nat.and_pow_two_sub_one_eq_mod]
    exact Nat.mod_eq_of_lt hv
  refine ⟨?_, ?_, ?_⟩
  · intro hne
    rw [poke_low s now arm a v hlow, busOverdrive_miss s a hne, hand]
  · intro heq hle
    rw [poke_low s now arm a v hlow, busOverdrive_hit s a heq hle]
    refine ⟨rfl, ?_, rfl⟩
    have : getAddressMap
        { setAddressMap (readFromDatastream s (getAddressMap s (a &&& 0x7F) &&& 0x0F)).2
            (a &&& 0x7F)
            (((getAddressMap s (a &&& 0x7F) >>> 4) |||
              ((getAddressMap s (a &&& 0x7F) &&& 0x0F) <<< 28)) % 4294967296)
          with busOverdriveAddress := 0xFF } (a &&& 0x7F) =
        getAddressMap
          (setAddressMap (readFromDatastream s (getAddressMap s (a &&& 0x7F) &&& 0x0F)).2
            (a &&& 0x7F)
            (((getAddressMap s (a &&& 0x7F) >>> 4) |||
              ((getAddressMap s (a &&& 0x7F) &&& 0x0F) <<< 28)) % 4294967296))
          (a &&& 0x7F) := rfl
    rw [this]
    exact getSet_addressMap _ _ _ (Nat.mod_lt _ (by norm_num))
  · intro heq hgt
    rw [poke_low s now arm a v hlow, busOverdrive_far s a heq hgt, hand]

/-- C3 witness, applying the amended theorem at three concrete armed or
unarmed states. -/
theorem C3_witness :
    ((0x07 : Nat) ≠ zeroState.busOverdriveAddress ∧
      poke zeroState 0 id 0x07 5 = (false, 5, { zeroState with busOverdriveAddress := 0xFF })) ∧
    ((0x20 : Nat) = c3s1.busOverdriveAddress ∧ (0x20 : Nat) &&& 0x7F ≤ 0x24 ∧
      (poke c3s1 0 id 0x20 0x00).2.1 =
        0x00 &&& (readFromDatastream c3s1 (getAddressMap c3s1 (0x20 &&& 0x7F) &&& 0x0F)).1) ∧
    ((0x25 : Nat) = c3s2.busOverdriveAddress ∧ ¬ ((0x25 : Nat) &&& 0x7F ≤ 0x24) ∧
      poke c3s2 0 id 0x25 0x41 = (false, 0x41, { c3s2 with busOverdriveAddress := 0xFF })) :=
  ⟨⟨by decide, (C3_bus_override zeroState 0 id 0x07 5 (by decide) (by decide)).1 (by decide)⟩,
   ⟨by decide, by decide,
     ((C3_bus_override c3s1 0 id 0x20 0x00 (by decide) (by decide)).2.1
       (by decide) (by decide)).1⟩,
   ⟨by decide, by decide,
     (C3_bus_override c3s2 0 id 0x25 0x41 (by decide) (by decide)).2.2
       (by decide) (by decide)⟩⟩

/-- C3 counterexample: at the reachable state `c3s1` the override is armed
at `0x20` and the next byte of the selected datastream is `0xFF`, yet
poking the value `0x00` to `0x20` forwards `0x00` — the write is ANDed with
the stream byte, not replaced by it.  At the reachable state `c3s2` the
override is armed at `0x25`, whose low 7 bits exceed the `0x24` guard, and
a poke to `0x25` forwards the value untouched and leaves map entry `0x25`
unrotated (the claimed rotation would change it from 1 to `0x10000000`).
The pending address is cleared in both cases, as claimed. -/
theorem C3_counterexample :
    Reachable c3s1 ∧
    c3s1.busOverdriveAddress = 0x20 ∧
    (readFromDatastream c3s1 (getAddressMap c3s1 (0x20 &&& 0x7F) &&& 0x0F)).1 = 0xFF ∧
    (poke c3s1 0 id 0x20 0x00).2.1 = 0 ∧
    (poke c3s1 0 id 0x20 0x00).2.2.busOverdriveAddress = 0xFF ∧
    Reachable c3s2 ∧
    c3s2.busOverdriveAddress = 0x25 ∧
    getAddressMap c3s2 (0x25 &&& 0x7F) = 1 ∧
    (poke c3s2 0 id 0x25 0xFF).2.1 = 0xFF ∧
    getAddressMap (poke c3s2 0 id 0x25 0xFF).2.2 (0x25 &&& 0x7F) = 1 ∧
    (poke c3s2 0 id 0x25 0xFF).2.2.busOverdriveAddress = 0xFF := by
  refine ⟨Reachable.rpeek _ _ _ (Reachable.rpeek _ _ _ (Reachable.rpoke _ _ _ _
      (Reachable.rpoke _ _ _ _ (Reachable.base _ _)))), by decide, by decide,
    by decide, by decide,
    Reachable.rpeek _ _ _ (Reachable.rpeek _ _ _ (Reachable.rpoke _ _ _ _
      (Reachable.base _ _))), by decide, by decide, by decide, by decide, by decide⟩

/-- C4 (amended): `readFromDatastream` returns the display-RAM byte at
`pointer >> 20` (the pointer before advancing) and advances the cursor by
the LOW 16 BITS of the associated configured increment shifted left by 12,
modulo 2^32 — the source narrows the 32-bit table entry to `uInt16` before
shifting. -/
theorem C4_read_advance (s : CartState) (idx : Nat) (h : idx ≤ 17) :
    (readFromDatastream s idx).1 =
      s.busRAM (DSRAM + (getDatastreamPointer s idx >>> 20)) ∧
    getDatastreamPointer (readFromDatastream s idx).2 idx =
      (getDatastreamPointer s idx +
        ((getDatastreamIncrement s idx % 65536) <<< 12)) % 4294967296 := by
  unfold readFromDatastream
  exact ⟨rfl, getSet_datastreamPointer _ idx _ (Nat.mod_lt _ (by norm_num))⟩

/-- C4 witness at the concrete counterexample state: the byte returned is
display byte 0 and the pointer advance uses only the low 16 increment
bits. -/
theorem C4_witness :
    (0 : Nat) ≤ 17 ∧
    (readFromDatastream c4state 0).1 =
      c4state.busRAM (DSRAM + (getDatastreamPointer c4state 0 >>> 20)) ∧
    getDatastreamPointer (readFromDatastream c4state 0).2 0 =
      (getDatastreamPointer c4state 0 +
        ((getDatastreamIncrement c4state 0 % 65536) <<< 12)) % 4294967296 :=
  ⟨by decide, (C4_read_advance c4state 0 (by decide)).1,
    (C4_read_advance c4state 0 (by decide)).2⟩

/-- C4 counterexample: at `c4state` the configured 32-bit increment is
`0x10000`, so the claimed advance `(increment << 12) mod 2^32` is
`0x10000000`; the code instead narrows the increment to 16 bits and leaves
the pointer at 0. -/
theorem C4_counterexample :
    getDatastreamIncrement c4state 0 = 0x10000 ∧
    getDatastreamPointer c4state 0 = 0 ∧
    getDatastreamPointer (readFromDatastream c4state 0).2 0 = 0 ∧
    (getDatastreamPointer c4state 0 +
      (getDatastreamIncrement c4state 0 <<< 12)) % 4294967296 = 0x10000000 := by
  refine ⟨by decide, by decide, by decide, by decide⟩

/-- C5: `writeToDatastream i v` stores `v` at the display-RAM byte addressed
by the integer part of stream `i`'s cursor, advances that cursor by the
fixed unit step `0x100000` (one integer position, regardless of the
configured increment), and a subsequent `readFromDatastream` through any
stream whose cursor integer position equals the pre-write position returns
exactly `v`: the display RAM is one shared backing store. -/
theorem C5_write_then_read (s : CartState) (i j v : Nat)
    (hi : i ≤ 17) (hj : j ≤ 17) (hv : v < 256) :
    (writeToDatastream s i v).busRAM (DSRAM + (getDatastreamPointer s i >>> 20)) = v ∧
    getDatastreamPointer (writeToDatastream s i v) i =
      (getDatastreamPointer s i + 0x100000) % 4294967296 ∧
    (getDatastreamPointer (writeToDatastream s i v) j >>> 20 =
        getDatastreamPointer s i >>> 20 →
      (readFromDatastream (writeToDatastream s i v) j).1 = v) := by
  have h1 : (writeToDatastream s i v).busRAM
      (DSRAM + (getDatastreamPointer s i >>> 20)) = v := by
    unfold writeToDatastream setDatastreamPointer
    dsimp only
    rw [if_neg (by unfold DSRAM DSxPTR; omega), if_neg (by unfold DSRAM DSxPTR; omega),
        if_neg (by unfold DSRAM DSxPTR; omega), if_neg (by unfold DSRAM DSxPTR; omega),
        if_pos rfl]
    exact Nat.mod_eq_of_lt hv
  refine ⟨h1, ?_, ?_⟩
  · unfold writeToDatastream
    exact getSet_datastreamPointer _ i _ (Nat.mod_lt _ (by norm_num))
  · intro hp
    unfold readFromDatastream
    dsimp only
    rw [hp]
    exact h1

/-- C5 witness at the all-zero state, writing byte `0xAB` through stream 2
and reading it back through stream 5 (both cursors at position 0). -/
theorem C5_witness :
    (2 : Nat) ≤ 17 ∧ (5 : Nat) ≤ 17 ∧ (0xAB : Nat) < 256 ∧
    getDatastreamPointer (writeToDatastream zeroState 2 0xAB) 5 >>> 20 =
      getDatastreamPointer zeroState 2 >>> 20 ∧
    (readFromDatastream (writeToDatastream zeroState 2 0xAB) 5).1 = 0xAB :=
  ⟨by decide, by decide, by decide, by decide,
    (C5_write_then_read zeroState 2 5 0xAB (by decide) (by decide) (by decide)).2.2
      (by decide)⟩

/-- C6 (amended): while the bank lock is held every `bank(n)` call fails and
leaves the state untouched; `patch` is NOT lock-guarded: independent of the
lock it rejects only addresses in the protected low `0x40` bytes and
otherwise rewrites the ROM byte of the active bank and reports success
(leaving the bank register itself unchanged); while unlocked, `bank 3`
succeeds, sets the bank register to 3 and remaps the host-bus pages. -/
theorem C6_locked_bank_patch (s : CartState) (n a v : Nat) :
    (s.bankLocked = true → bank s n = (false, s)) ∧
    (0x40 ≤ a % 4096 →
      (patch s a v).1 = true ∧
      (patch s a v).2.image (4096 + (s.currentBank <<< 12) + a % 4096) = v % 256 ∧
      getBank (patch s a v).2 = getBank s) ∧
    (a % 4096 < 0x40 → patch s a v = (false, s)) ∧
    (s.bankLocked = false →
      (bank s 3).1 = true ∧ getBank (bank s 3).2 = 3 ∧
      (∀ p, 0x1040 ≤ p → p < 0x2000 →
        (bank s 3).2.pageMap p = (3 <<< 12) + p % 4096)) := by
  refine ⟨?_, ?_, ?_, ?_⟩
  · intro hl
    unfold bank
    rw [if_pos hl]
  · intro ha
    unfold patch getBank
    rw [if_pos ha]
    refine ⟨rfl, ?_, rfl⟩
    dsimp only
    rw [if_pos rfl]
  · intro ha
    unfold patch
    rw [if_neg (by omega)]
  · intro hl
    unfold bank getBank
    rw [if_neg (by simp [hl])]
    refine ⟨rfl, by norm_num, ?_⟩
    intro p h1 h2
    dsimp only
    rw [if_pos ⟨h1, h2⟩]

/-- C6 witness, applying the theorem at a locked and at an unlocked concrete
state. -/
theorem C6_witness :
    (lockBank zeroState).bankLocked = true ∧
    bank (lockBank zeroState) 4 = (false, lockBank zeroState) ∧
    zeroState.bankLocked = false ∧
    (bank zeroState 3).1 = true ∧ getBank (bank zeroState 3).2 = 3 ∧
    (0x40 : Nat) ≤ 0x80 % 4096 ∧ (patch zeroState 0x80 7).1 = true ∧
    (0x10 : Nat) % 4096 < 0x40 ∧ patch zeroState 0x10 7 = (false, zeroState) :=
  ⟨rfl, (C6_locked_bank_patch (lockBank zeroState) 4 0 0).1 rfl, rfl,
    ((C6_locked_bank_patch zeroState 4 0 0).2.2.2 rfl).1,
    ((C6_locked_bank_patch zeroState 4 0 0).2.2.2 rfl).2.1,
    by decide, ((C6_locked_bank_patch zeroState 4 0x80 7).2.1 (by decide)).1,
    by decide, (C6_locked_bank_patch zeroState 4 0x10 7).2.2.1 (by decide)⟩

/-- C6 counterexample: on a reachable cartridge with the bank lock held,
`patch` still reports success and still rewrites a ROM byte of the active
bank — the source performs no lock check in `patch`, contradicting the
claim that every `patch` fails and mutates nothing while locked. -/
theorem C6_counterexample :
    Reachable (lockBank (initialState (fun _ => 0) 0)) ∧
    (lockBank (initialState (fun _ => 0) 0)).bankLocked = true ∧
    (patch (lockBank (initialState (fun _ => 0) 0)) 0x40 1).1 = true ∧
    (patch (lockBank (initialState (fun _ => 0) 0)) 0x40 1).2.image
        (4096 + (6 <<< 12) + 0x40) = 1 ∧
    (lockBank (initialState (fun _ => 0) 0)).image (4096 + (6 <<< 12) + 0x40) = 0 := by
  refine ⟨Reachable.rlock _ (Reachable.base _ _), by decide, by decide, by decide, by decide⟩

/-- C7: for every voice, a waveform-offset entry whose origin-subtracted raw
index is at least 4096 resolves to base 0, and the resolved base is always
below 4096, so the waveform lookup stays inside the display region. -/
theorem C7_waveform_clamp (s : CartState) (i : Nat) (h : i < 3) :
    (4096 ≤ waveformRawIndex s i → getWaveform s i = 0) ∧
    getWaveform s i < 4096 := by
  unfold getWaveform waveformRawIndex
  dsimp only
  constructor
  · intro hge
    rw [if_pos hge]
  · split <;> omega

/-- C7 witness: the all-zero table entry decodes to a raw index far above
4096 and is clamped to 0. -/
theorem C7_witness :
    (0 : Nat) < 3 ∧ 4096 ≤ waveformRawIndex zeroState 0 ∧
      getWaveform zeroState 0 = 0 :=
  ⟨by decide, by decide, (C7_waveform_clamp zeroState 0 (by decide)).1 (by decide)⟩

/-- C8 (amended): after construction and after `reset()` the mode byte holds
`0xFF` — the all-features-DISABLED sentinel: bus stuffing/fast fetch (low
nibble) and digital audio (high nibble) are both off, i.e. the cartridge
starts in waveform-synthesis mode with bus stuffing inactive. -/
theorem C8_mode_reset_default (img : Nat → Nat) (now : Int)
    (s : CartState) (now' : Int) :
    (initialState img now).mode = 0xFF ∧
    ¬ busStuffOn (initialState img now) ∧
    ¬ digitalAudioOn (initialState img now) ∧
    (resetCart s now').mode = 0xFF ∧
    ¬ busStuffOn (resetCart s now') ∧
    ¬ digitalAudioOn (resetCart s now') := by
  refine ⟨?_, ?_, ?_, ?_, ?_, ?_⟩ <;>
    simp [initialState, resetCart, bank, busStuffOn, digitalAudioOn] <;>
    split <;> simp

/-- C8 counterexample: at a concrete freshly constructed cartridge the mode
byte is `0xFF`, and for `0xFF` both the bus-stuffing test (low nibble zero)
and the digital-audio test (high nibble zero) are DISABLED — contradicting
the claim that the reset default is the all-features-enabled state. -/
theorem C8_counterexample :
    (initialState (fun _ => 0) 0).mode = 0xFF ∧
    ¬ (busStuffOn (initialState (fun _ => 0) 0) ∧
       digitalAudioOn (initialState (fun _ => 0) 0)) := by
  constructor
  · decide
  · decide

/-- C9: a load whose leading type-tag string differs from the component name
returns `false` and returns the state exactly as it was (no field is
touched). -/
theorem C9_load_tag_mismatch (s : CartState) (tag : String) (rest : List SerItem)
    (h : tag ≠ busName) :
    load s (SerItem.sStr tag :: rest) = (false, s) := by
  delta load
  dsimp only
  rw [if_neg h]

/-- C9 witness: a concrete mismatching tag is rejected with the state
untouched. -/
theorem C9_witness :
    "CartridgeDPC" ≠ busName ∧
    load zeroState [SerItem.sStr "CartridgeDPC"] = (false, zeroState) :=
  ⟨by decide, C9_load_tag_mismatch zeroState "CartridgeDPC" [] (by decide)⟩

/-- C10: `poke` reports `false` to the host bus for every address and value,
even though a poke to the bank-select hotspot `0x1FF8` (bank unlocked) does
switch to bank 3, sets the internal bank-changed flag and remaps the
host-bus pages. -/
theorem C10_poke_changed_flag (s : CartState) (now : Int)
    (arm : CartState → CartState) (a v : Nat) :
    (poke s now arm a v).1 = false ∧
    (s.bankLocked = false →
      getBank (poke s now arm 0x1FF8 v).2.2 = 3 ∧
      (poke s now arm 0x1FF8 v).2.2.bankChanged = true ∧
      (∀ p, 0x1040 ≤ p → p < 0x2000 →
        (poke s now arm 0x1FF8 v).2.2.pageMap p = (3 <<< 12) + p % 4096)) := by
  constructor
  · rcases Decidable.em (a &&& 0x1000 = 0) with hc | hc
    · unfold poke
      rw [if_pos hc]
    · unfold poke
      rw [if_neg hc]
  · intro hl
    have hb : (poke s now arm 0x1FF8 v).2.2 = (bank s 3).2 := rfl
    rw [hb]
    unfold bank
    rw [if_neg (by simp [hl])]
    refine ⟨rfl, rfl, ?_⟩
    intro p h1 h2
    dsimp only [getBank]
    rw [if_pos ⟨h1, h2⟩]

/-- C10 witness at the all-zero state. -/
theorem C10_witness :
    (poke zeroState 0 id 0 0).1 = false ∧
    zeroState.bankLocked = false ∧
    getBank (poke zeroState 0 id 0x1FF8 0).2.2 = 3 :=
  ⟨(C10_poke_changed_flag zeroState 0 id 0 0).1, rfl,
    ((C10_poke_changed_flag zeroState 0 id 0 0).2 rfl).1⟩

end CartridgeBUS
